import Mathlib

/-!
Verification development for the `oura_api` client library.

The definitions below are a shallow embedding of the library's core:
the URL constants and error classes of `utils.ts`, the request executor
`OuraBase.#get` and pagination aggregator `OuraBase.getAll` of
`OuraBase.ts`, the webhook facade `Webhook.#request` /
`Webhook.updateSubscription` of `Webhook.ts`, and the constructors of
`Oura` and `OuraOAuth`.  The HTTP layer is modelled by passing the
response(s) the server would produce as explicit arguments; JavaScript
`undefined` slots are modelled by `Option`, JavaScript truthiness of
strings/booleans by explicit helper functions, and thrown exceptions by
`Except`.
-/

namespace OuraApi

/-- JavaScript truthiness of a `string | undefined` value:
`undefined` and the empty string are falsy. -/
def truthyOptStr : Option String → Bool
  | none => false
  | some s => s ≠ ""

/-- JavaScript truthiness of a `boolean | undefined` value. -/
def truthyOptBool : Option Bool → Bool
  | none => false
  | some b => b

/-- `API_URLS.baseV2` from `utils.ts`. -/
def API_URLS.baseV2 : String := "https://api.ouraring.com/v2/usercollection/"

/-- `API_URLS.basev2Sandbox` from `utils.ts`. -/
def API_URLS.basev2Sandbox : String := "https://api.ouraring.com/v2/sandbox/usercollection/"

/-- The webhook base URL assigned in the `Webhook` constructor. -/
def webhookBaseUrl : String := "https://api.ouraring.com/v2/webhook/"

/-- Runtime shape of the error objects thrown by the library
(`utils.ts`).  Every class stores `name` and `message`; the API error
classes additionally store `statusCode`, `responseBody`, `detail`,
`url` and `method`.  A field holding `none` models a slot left
`undefined` at runtime (e.g. a constructor argument that was never
passed). -/
structure ErrObj where
  name : String
  message : String
  statusCode : Option Nat
  responseBody : Option String
  detail : Option String
  url : Option String
  method : Option String
deriving DecidableEq

/-- `new APIError(message, statusCode, responseBody, detail, url, method)`
from `utils.ts`.  The last three arguments are `Option`s because the
webhook facade invokes this constructor with only three arguments,
leaving `detail`, `url` and `method` `undefined`. -/
def APIError.construct (message : String) (statusCode : Nat) (responseBody : String)
    (detail url method : Option String) : ErrObj :=
  ⟨"APIError", message, some statusCode, some responseBody, detail, url, method⟩

/-- `new RateLimitExceeded(...)` from `utils.ts` (always fully applied). -/
def RateLimitExceeded.construct (message : String) (statusCode : Nat)
    (responseBody detail url method : String) : ErrObj :=
  ⟨"RateLimitExceeded", message, some statusCode, some responseBody, some detail, some url,
    some method⟩

/-- `new ValidationError(...)` from `utils.ts` (always fully applied). -/
def ValidationError.construct (message : String) (statusCode : Nat)
    (statusText detail url method : String) : ErrObj :=
  ⟨"ValidationError", message, some statusCode, some statusText, some detail, some url,
    some method⟩

/-- `new MissingTokenError()` from `utils.ts`: carries only a message. -/
def MissingTokenError.construct : ErrObj :=
  ⟨"MissingTokenError", "Access token is missing", none, none, none, none, none⟩

/-- `new MissingClientIdError()` from `utils.ts`. -/
def MissingClientIdError.construct : ErrObj :=
  ⟨"MissingClientIdError", "Client Id is missing", none, none, none, none, none⟩

/-- `new MissingClientSecretError()` from `utils.ts`. -/
def MissingClientSecretError.construct : ErrObj :=
  ⟨"MissingClientSecretError", "Client Secret is missing", none, none, none, none, none⟩

/-- `new MissingRedirectUriError()` from `utils.ts`. -/
def MissingRedirectUriError.construct : ErrObj :=
  ⟨"MissingRedirectUriError", "Redirect URI is missing", none, none, none, none, none⟩

/-- The built-in exception `response.json()` raises on an unparseable
body when it escapes the executor (only possible on a 2xx response,
where the source returns `await response.json()` outside any
`try`/`catch`). -/
def jsonSyntaxError : ErrObj :=
  ⟨"SyntaxError", "Unexpected token in JSON", none, none, none, none, none⟩

/-- Uppercase hexadecimal digit. -/
def hexDigit (n : Nat) : Char :=
  if n < 10 then Char.ofNat (48 + n) else Char.ofNat (55 + n)

/-- Percent-encoding of one byte, uppercase hex as produced by
JavaScript URL encoding. -/
def percentByte (b : UInt8) : String :=
  "%" ++ String.singleton (hexDigit (b.toNat / 16)) ++ String.singleton (hexDigit (b.toNat % 16))

/-- UTF-8 percent-encoding of a single character. -/
def utf8Percent (c : Char) : String :=
  ((String.singleton c).toUTF8.toList).foldl (fun a b => a ++ percentByte b) ""

/-- The characters JavaScript `encodeURI` leaves unescaped besides
alphanumerics (the apostrophe is written via its code point 39). -/
def encodeURIUnescaped : List Char :=
  ['-', '_', '.', '!', '~', '*', Char.ofNat 39, '(', ')', ';', '/', '?', ':', '@', '&',
    '=', '+', '$', ',', '#']

/-- Model of JavaScript `encodeURI`. -/
def encodeURI (s : String) : String :=
  s.data.foldl
    (fun a c =>
      a ++ if c.isAlphanum || encodeURIUnescaped.contains c then String.singleton c
        else utf8Percent c) ""

/-- The characters `URLSearchParams` serialization leaves unescaped
besides alphanumerics (`application/x-www-form-urlencoded`). -/
def formUnescaped : List Char := ['*', '-', '.', '_']

/-- One character of `application/x-www-form-urlencoded` output. -/
def formEncodeChar (c : Char) : String :=
  if c.isAlphanum || formUnescaped.contains c then String.singleton c
  else if c = ' ' then "+" else utf8Percent c

/-- `application/x-www-form-urlencoded` encoding of a string. -/
def formEncode (s : String) : String :=
  s.data.foldl (fun a c => a ++ formEncodeChar c) ""

/-- `new URLSearchParams(qs).toString()` for a record of string pairs. -/
def urlSearchParamsString (qs : List (String × String)) : String :=
  String.intercalate "&" (qs.map fun kv => formEncode kv.1 ++ "=" ++ formEncode kv.2)

/-- The parsed JSON body of an HTTP response, as far as the library
inspects it: `malformed` models a body on which `response.json()`
throws; `obj detail doc` models a parsed JSON object that has no `data`
member (its optional `detail` member is what the error paths read, and
`doc` stands for the rest of the document); `envelope data next_token`
models the paginated wire shape `{ data: [...], next_token }`. -/
inductive Body (α : Type) where
  | malformed : Body α
  | obj : Option String → α → Body α
  | envelope : List α → Option String → Body α
deriving DecidableEq

/-- One HTTP response as the executor sees it. -/
structure HttpResponse (α : Type) where
  status : Nat
  statusText : String
  body : Body α
deriving DecidableEq

/-- `response.ok`: status in the 2xx range. -/
def respOk (status : Nat) : Bool := 200 ≤ status && status ≤ 299

/-- The `detail` value the error paths of `OuraBase.#get` compute:
`try { detail = (await response.json()).detail || "" } catch { detail = "No details" }`. -/
def detailOf {α : Type} : Body α → String
  | .malformed => "No details"
  | .obj d _ => d.getD ""
  | .envelope _ _ => ""

/-- The state of an `OuraBase` client: the `#useSandbox` flag, written
once by the constructor and read-only afterwards (the class has no
other assignment to it). -/
structure OuraBaseClient where
  useSandbox : Bool
deriving DecidableEq

/-- The `OuraBase` constructor: `#useSandbox` initializes to `false`
and is set to `true` exactly when `options.useSandbox` is truthy. -/
def OuraBase.new (useSandbox : Option Bool) : OuraBaseClient :=
  ⟨truthyOptBool useSandbox⟩

/-- `const baseUrl = this.#useSandbox ? API_URLS.basev2Sandbox : API_URLS.baseV2`. -/
def requestBaseUrl (c : OuraBaseClient) : String :=
  if c.useSandbox then API_URLS.basev2Sandbox else API_URLS.baseV2

/-- The URL `OuraBase.#get` passes to `fetch`:
`baseUrl + encodeURI(url) + (qs ? "?" + params.toString() : "")`. -/
def fetchUrl (c : OuraBaseClient) (endpoint : String) (qs : Option (List (String × String))) :
    String :=
  requestBaseUrl c ++ encodeURI endpoint ++
    (match qs with
      | some q => "?" ++ urlSearchParamsString q
      | none => "")

/-- The request `OuraBase.#get` issues: its URL, method, the
`Authorization` header (string concatenation with an `undefined` token
yields `"Bearer undefined"`, as in JavaScript), and the query-record it
was invoked with. -/
structure Request where
  url : String
  method : String
  authHeader : String
  params : Option (List (String × String))
deriving DecidableEq

/-- `OuraBase.#get(accessToken, url, qs)` evaluated against the response
`resp` the server returns for it: yields the issued `Request` together
with either the parsed body (2xx) or the thrown error.
Status 400 throws `ValidationError`, 429 throws `RateLimitExceeded`,
other non-2xx statuses throw `APIError`; all three read the vendor
`detail` via `detailOf` and carry `baseUrl + encodeURI(url)` and
`"GET"`. -/
def ouraGet {α : Type} (c : OuraBaseClient) (accessToken : Option String) (endpoint : String)
    (qs : Option (List (String × String))) (resp : HttpResponse α) :
    Request × Except ErrObj (Body α) :=
  let baseUrl := requestBaseUrl c
  let errUrl := baseUrl ++ encodeURI endpoint
  let req : Request :=
    ⟨fetchUrl c endpoint qs, "GET", "Bearer " ++ accessToken.getD "undefined", qs⟩
  let result : Except ErrObj (Body α) :=
    if resp.status = 400 then
      .error (ValidationError.construct "Query Parameter Validation Error" resp.status
        resp.statusText (detailOf resp.body) errUrl "GET")
    else if resp.status = 429 then
      .error (RateLimitExceeded.construct "Request Rate Limit Exceeded" resp.status
        resp.statusText (detailOf resp.body) errUrl "GET")
    else if respOk resp.status then
      match resp.body with
      | .malformed => .error jsonSyntaxError
      | b => .ok b
    else
      .error (APIError.construct "Problem fetching data." resp.status resp.statusText
        (some (detailOf resp.body)) (some errUrl) (some "GET"))
  (req, result)

/-- Outcome of a run of `OuraBase.getAll`: the aggregated `data`
arrays of a paginated run, a singleton body returned directly (the
`else` branch for responses without a `data` member), a thrown error,
or `serverSilent` when the scripted response list runs out before the
loop terminates (the model's stand-in for a still-running loop). -/
inductive GetAllResult (α : Type) where
  | dataList : List α → GetAllResult α
  | single : Body α → GetAllResult α
  | err : ErrObj → GetAllResult α
  | serverSilent : GetAllResult α
deriving DecidableEq

/-- The `do … while (nextToken)` loop of `OuraBase.getAll`, with the
mutable `allData` accumulator passed explicitly and the consecutive
server responses supplied as a list.  Each iteration calls `#get` with
the current `params`; a thrown error propagates immediately; a body
without a `data` member is returned directly; otherwise the page's
`data` is appended and the loop continues exactly when the page's
`next_token` is truthy, with `params := { next_token }`. -/
def getAllGo {α : Type} (c : OuraBaseClient) (accessToken : Option String) (endpoint : String) :
    Option (List (String × String)) → List (HttpResponse α) → List α →
      List Request × GetAllResult α
  | _, [], _ => ([], .serverSilent)
  | params, resp :: rest, allData =>
    let step := ouraGet c accessToken endpoint params resp
    match step.2 with
    | .error e => ([step.1], .err e)
    | .ok body =>
      match body with
      | .envelope pageData nextToken =>
        let allData2 := allData ++ pageData
        match nextToken with
        | some t =>
          if t ≠ "" then
            let rec2 := getAllGo c accessToken endpoint (some [("next_token", t)]) rest allData2
            (step.1 :: rec2.1, rec2.2)
          else ([step.1], .dataList allData2)
        | none => ([step.1], .dataList allData2)
      | b => ([step.1], .single b)

/-- `OuraBase.getAll(accessToken, endpoint, initialParams)` run against
the given list of consecutive server responses: returns the requests it
issues together with its outcome. -/
def getAll {α : Type} (c : OuraBaseClient) (accessToken : Option String) (endpoint : String)
    (initialParams : Option (List (String × String))) (responses : List (HttpResponse α)) :
    List Request × GetAllResult α :=
  getAllGo c accessToken endpoint initialParams responses []

/-- One page of a paginated fixture. -/
structure Page (α : Type) where
  data : List α
  nextToken : Option String
deriving DecidableEq

/-- The 200-OK response serving one fixture page. -/
def pageResponse {α : Type} (p : Page α) : HttpResponse α :=
  ⟨200, "OK", .envelope p.data p.nextToken⟩

/-- The response sequence serving a list of fixture pages in order. -/
def pagesToResponses {α : Type} (ps : List (Page α)) : List (HttpResponse α) :=
  ps.map pageResponse

/-- Truthiness of a page's `next_token` (the loop-continuation test of
`getAll`): non-null and non-empty. -/
def truthyToken {α : Type} (p : Page α) : Bool :=
  match p.nextToken with
  | some t => t ≠ ""
  | none => false

/-- A well-formed paginated fixture: at least one page, every page
before the last carries a truthy `next_token`, and the final page's
`next_token` is null. -/
def paginationChain {α : Type} : List (Page α) → Bool
  | [] => false
  | [p] => p.nextToken.isNone
  | p :: q :: rest => truthyToken p && paginationChain (q :: rest)

/-- Spec-side description of the requests a fixture run must issue: one
request carrying the initial parameters, then, for each page except the
last, one request whose only query parameter is `next_token` set to
that page's token. -/
def expectedTail {α : Type} (c : OuraBaseClient) (accessToken : Option String)
    (endpoint : String) : List (Page α) → List Request
  | [] => []
  | [_] => []
  | p :: q :: rest =>
    let qs : Option (List (String × String)) := some [("next_token", p.nextToken.getD "")]
    ⟨fetchUrl c endpoint qs, "GET", "Bearer " ++ accessToken.getD "undefined", qs⟩ ::
      expectedTail c accessToken endpoint (q :: rest)

/-- Spec-side description of a full fixture run's request list. -/
def expectedRequests {α : Type} (c : OuraBaseClient) (accessToken : Option String)
    (endpoint : String) (initialParams : Option (List (String × String)))
    (pages : List (Page α)) : List Request :=
  ⟨fetchUrl c endpoint initialParams, "GET", "Bearer " ++ accessToken.getD "undefined",
    initialParams⟩ :: expectedTail c accessToken endpoint pages

/-- Escaping of one character by `JSON.stringify` for string values. -/
def jsonEscapeChar (c : Char) : String :=
  if c = Char.ofNat 34 then "\\" ++ String.singleton (Char.ofNat 34)
  else if c = Char.ofNat 92 then "\\\\"
  else if c = Char.ofNat 10 then "\\n"
  else if c = Char.ofNat 13 then "\\r"
  else if c = Char.ofNat 9 then "\\t"
  else if c = Char.ofNat 8 then "\\b"
  else if c = Char.ofNat 12 then "\\f"
  else if c.toNat < 32 then
    "\\u00" ++ String.singleton (hexDigit (c.toNat / 16)) ++
      String.singleton (hexDigit (c.toNat % 16))
  else String.singleton c

/-- A JSON string literal as `JSON.stringify` produces it. -/
def jsonQuote (s : String) : String :=
  "\"" ++ s.data.foldl (fun a c => a ++ jsonEscapeChar c) "" ++ "\""

/-- `JSON.stringify` of a record whose remaining values are all
strings, keys in insertion order. -/
def jsonStringify (kvs : List (String × String)) : String :=
  "\x7b" ++ String.intercalate "," (kvs.map fun kv => jsonQuote kv.1 ++ ":" ++ jsonQuote kv.2) ++
    "\x7d"

/-- The state of a `Webhook` client. -/
structure WebhookClientData where
  clientId : String
  clientSecret : String
  baseUrlv2 : String
deriving DecidableEq

/-- The `Webhook` constructor: throws `MissingClientIdError` /
`MissingClientSecretError` on a falsy client id / secret. -/
def Webhook.new (clientId clientSecret : String) : Except ErrObj WebhookClientData :=
  if clientId = "" then .error MissingClientIdError.construct
  else if clientSecret = "" then .error MissingClientSecretError.construct
  else .ok ⟨clientId, clientSecret, webhookBaseUrl⟩

/-- The `fetch` options `Webhook.#request` builds: POST/PUT get a JSON
content type and the serialized body (when one is supplied); other
methods get only the credential headers and no body. -/
structure FetchOptions where
  method : String
  headers : List (String × String)
  body : Option String
deriving DecidableEq

/-- Options-building part of `Webhook.#request`. -/
def webhookOptions (w : WebhookClientData) (method : String)
    (body : Option (List (String × String))) : FetchOptions :=
  if method = "POST" || method = "PUT" then
    ⟨method,
      [("Content-Type", "application/json"), ("x-client-id", w.clientId),
        ("x-client-secret", w.clientSecret)],
      body.map jsonStringify⟩
  else
    ⟨method, [("x-client-id", w.clientId), ("x-client-secret", w.clientSecret)], none⟩

/-- An HTTP response to a webhook request, with both the value
`response.json()` would yield and the value `response.text()` would
yield. -/
structure WebhookResponse where
  status : Nat
  statusText : String
  jsonBody : Body Nat
  textBody : String
deriving DecidableEq

/-- A successful `Webhook.#request` outcome: parsed JSON, or raw text
for DELETE. -/
inductive WebhookValue where
  | json : Body Nat → WebhookValue
  | text : String → WebhookValue
deriving DecidableEq

/-- `Webhook.#request(method, url, body)` evaluated against `resp`:
yields the built fetch options, the fetched URL, and either the
response value or the thrown error.  On a non-OK response the source
throws `new APIError("Problem with request.", response.status,
response.statusText)` — three arguments only, so the `detail`, `url`
and `method` slots of the error are left `undefined`. -/
def webhookRequest (w : WebhookClientData) (method url : String)
    (body : Option (List (String × String))) (resp : WebhookResponse) :
    FetchOptions × String × Except ErrObj WebhookValue :=
  let opts := webhookOptions w method body
  let fullUrl := w.baseUrlv2 ++ encodeURI url
  let result : Except ErrObj WebhookValue :=
    if respOk resp.status then
      if method = "DELETE" then .ok (.text resp.textBody)
      else
        match resp.jsonBody with
        | .malformed => .error jsonSyntaxError
        | b => .ok (.json b)
    else
      .error (APIError.construct "Problem with request." resp.status resp.statusText
        none none none)
  (opts, fullUrl, result)

/-- The request body `Webhook.updateSubscription` builds: the object
`{ callback_url, verification_token, event_type, data_type }` in that
insertion order, from which each of the three optional keys is
`delete`d again when its argument is falsy (`undefined` or the empty
string).  `verification_token` is never deleted. -/
def updateSubscriptionData (verificationToken : String)
    (callbackUrl eventType dataType : Option String) : List (String × String) :=
  (if truthyOptStr callbackUrl then [("callback_url", callbackUrl.getD "")] else []) ++
    [("verification_token", verificationToken)] ++
    (if truthyOptStr eventType then [("event_type", eventType.getD "")] else []) ++
    (if truthyOptStr dataType then [("data_type", dataType.getD "")] else [])

/-- `Webhook.updateSubscription(id, verificationToken, callbackUrl,
eventType, dataType)` evaluated against `resp`: a PUT to
`subscription/<id>` carrying the pruned body. -/
def updateSubscription (w : WebhookClientData) (id verificationToken : String)
    (callbackUrl eventType dataType : Option String) (resp : WebhookResponse) :
    FetchOptions × String × Except ErrObj WebhookValue :=
  webhookRequest w "PUT" ("subscription/" ++ id)
    (some (updateSubscriptionData verificationToken callbackUrl eventType dataType)) resp

/-- The constructor argument of `Oura`: either a personal access token
string or an options object `{ accessToken?, useSandbox? }`. -/
inductive AccessTokenOrOptions where
  | token : String → AccessTokenOrOptions
  | options : Option String → Option Bool → AccessTokenOrOptions
deriving DecidableEq

/-- The state of an `Oura` client (static-token variant). -/
structure OuraClient where
  accessToken : String
  baseUrlv2 : String
deriving DecidableEq

/-- The `Oura` constructor: normalizes a string argument to
`{ accessToken }`; throws `MissingTokenError` when both `accessToken`
and `useSandbox` are falsy; with a truthy `useSandbox` stores an empty
token and the sandbox base URL, otherwise the supplied token and the
production base URL.  It performs no network call. -/
def Oura.new (arg : AccessTokenOrOptions) : Except ErrObj OuraClient :=
  let accessToken : Option String :=
    match arg with
    | .token s => some s
    | .options t _ => t
  let useSandbox : Option Bool :=
    match arg with
    | .token _ => none
    | .options _ u => u
  if !truthyOptStr accessToken && !truthyOptBool useSandbox then
    .error MissingTokenError.construct
  else if truthyOptBool useSandbox then
    .ok ⟨"", "https://api.ouraring.com/v2/sandbox/usercollection/"⟩
  else
    .ok ⟨accessToken.getD "", "https://api.ouraring.com/v2/usercollection/"⟩

/-- The options object of the `OuraOAuth` constructor. -/
structure OAuthOptions where
  clientId : Option String
  clientSecret : Option String
  redirectUri : Option String
  useSandbox : Option Bool
deriving DecidableEq

/-- The state of an `OuraOAuth` client. -/
structure OuraOAuthClient where
  base : OuraBaseClient
  clientId : String
  clientSecret : String
  redirectUri : String
deriving DecidableEq

/-- The `OuraOAuth` constructor: after `super(options)` it throws
`MissingClientIdError`, `MissingClientSecretError` or
`MissingRedirectUriError` for the first falsy one of `clientId`,
`clientSecret`, `redirectUri`, in that order, and succeeds when all
three are truthy.  It performs no network call. -/
def OuraOAuth.new (o : OAuthOptions) : Except ErrObj OuraOAuthClient :=
  let base := OuraBase.new o.useSandbox
  if !truthyOptStr o.clientId then .error MissingClientIdError.construct
  else if !truthyOptStr o.clientSecret then .error MissingClientSecretError.construct
  else if !truthyOptStr o.redirectUri then .error MissingRedirectUriError.construct
  else .ok ⟨base, o.clientId.getD "", o.clientSecret.getD "", o.redirectUri.getD ""⟩

/-- The `detail` field of the error a run of the executor threw, if it
threw one. -/
def thrownDetail {α : Type} (r : Request × Except ErrObj (Body α)) : Option String :=
  match r.2 with
  | .error err => err.detail
  | .ok _ => none

/-- An error object whose five request-level fields are all populated. -/
def fullyDetailed (err : ErrObj) : Bool :=
  err.statusCode.isSome && err.responseBody.isSome && err.detail.isSome && err.url.isSome &&
    err.method.isSome

/-- An error object that carries nothing beyond name and message. -/
def onlyMessage (err : ErrObj) : Bool :=
  err.statusCode.isNone && err.responseBody.isNone && err.detail.isNone && err.url.isNone &&
    err.method.isNone

/-- The executor throws the same error whatever query record it was
invoked with (the query string is not part of the error's URL). -/
theorem ouraGet_snd_qs {α : Type} (c : OuraBaseClient) (tok : Option String) (e : String)
    (qs qs2 : Option (List (String × String))) (resp : HttpResponse α) :
    (ouraGet c tok e qs resp).2 = (ouraGet c tok e qs2 resp).2 := rfl

/-- On any non-2xx response the executor throws. -/
theorem ouraGet_not_ok_error {α : Type} (c : OuraBaseClient) (tok : Option String) (e : String)
    (qs : Option (List (String × String))) (resp : HttpResponse α)
    (h : respOk resp.status = false) :
    ∃ err, (ouraGet c tok e qs resp).2 = Except.error err := by
  by_cases h4 : resp.status = 400
  · exact ⟨ValidationError.construct "Query Parameter Validation Error" resp.status
      resp.statusText (detailOf resp.body) (requestBaseUrl c ++ encodeURI e) "GET",
      by simp [ouraGet, h4]⟩
  · by_cases h9 : resp.status = 429
    · exact ⟨RateLimitExceeded.construct "Request Rate Limit Exceeded" resp.status
        resp.statusText (detailOf resp.body) (requestBaseUrl c ++ encodeURI e) "GET",
        by simp [ouraGet, h4, h9]⟩
    · exact ⟨APIError.construct "Problem fetching data." resp.status resp.statusText
        (some (detailOf resp.body)) (some (requestBaseUrl c ++ encodeURI e)) (some "GET"),
        by simp [ouraGet, h4, h9, h]⟩

/-- C2: for every 2xx response whose parsed body has no `data` member,
`getAll` returns the parsed body unchanged (wrapped as a singleton
outcome, bypassing accumulation) and issues exactly one request — the
one carrying the initial parameters — no matter how many further
responses the server would still serve. -/
theorem getAll_singleton_response (c : OuraBaseClient) (tok : Option String) (e : String)
    (ps : Option (List (String × String))) (status : Nat) (st : String) (d : Option String)
    (doc : Nat) (rest : List (HttpResponse Nat)) (h : respOk status = true) :
    getAll c tok e ps ((⟨status, st, Body.obj d doc⟩ : HttpResponse Nat) :: rest) =
      ([⟨fetchUrl c e ps, "GET", "Bearer " ++ tok.getD "undefined", ps⟩],
        GetAllResult.single (Body.obj d doc)) := by
  have h400 : status ≠ 400 := by rintro rfl; exact absurd h (by decide)
  have h429 : status ≠ 429 := by rintro rfl; exact absurd h (by decide)
  simp [getAll, getAllGo, ouraGet, h400, h429, h]

/-- C2 witness: a 200 response carrying a bare document. -/
theorem getAll_singleton_response_witness :
    respOk 200 = true ∧
      getAll (OuraBase.new none) (some "t") "personal_info" none
          ((⟨200, "OK", Body.obj none 7⟩ : HttpResponse Nat) :: []) =
        ([⟨fetchUrl (OuraBase.new none) "personal_info" none, "GET", "Bearer " ++
            (some "t").getD "undefined", none⟩],
          GetAllResult.single (Body.obj none 7)) :=
  ⟨by decide,
    getAll_singleton_response (OuraBase.new none) (some "t") "personal_info" none 200 "OK"
      none 7 [] (by decide)⟩

/-- C3: the executor's status dispatch — 429 throws `RateLimitExceeded`
carrying status 429, 400 throws `ValidationError`, every other non-2xx
status throws the generic `APIError`; each carries the vendor `detail`
computed by `detailOf`, which preserves a present `detail` field and
falls back to `"No details"` exactly when the error body is not
parseable JSON. -/
theorem executor_error_dispatch (c : OuraBaseClient) (tok : Option String) (e : String)
    (qs : Option (List (String × String))) (st : String) (body : Body Nat) (status : Nat)
    (h1 : respOk status = false) (h2 : status ≠ 400) (h3 : status ≠ 429) :
    (ouraGet c tok e qs (⟨429, st, body⟩ : HttpResponse Nat)).2 =
        Except.error (RateLimitExceeded.construct "Request Rate Limit Exceeded" 429 st
          (detailOf body) (requestBaseUrl c ++ encodeURI e) "GET") ∧
      (RateLimitExceeded.construct "Request Rate Limit Exceeded" 429 st (detailOf body)
          (requestBaseUrl c ++ encodeURI e) "GET").statusCode = some 429 ∧
      (ouraGet c tok e qs (⟨400, st, body⟩ : HttpResponse Nat)).2 =
        Except.error (ValidationError.construct "Query Parameter Validation Error" 400 st
          (detailOf body) (requestBaseUrl c ++ encodeURI e) "GET") ∧
      (ouraGet c tok e qs (⟨status, st, body⟩ : HttpResponse Nat)).2 =
        Except.error (APIError.construct "Problem fetching data." status st
          (some (detailOf body)) (some (requestBaseUrl c ++ encodeURI e)) (some "GET")) ∧
      (∀ s : String, ∀ doc : Nat, detailOf (Body.obj (some s) doc) = s) ∧
      detailOf (Body.malformed : Body Nat) = "No details" := by
  refine ⟨by simp [ouraGet], rfl, by simp [ouraGet], by simp [ouraGet, h1, h2, h3],
    fun s doc => rfl, rfl⟩

/-- C3 witness: a mocked 500 with a parseable error body. -/
theorem executor_error_dispatch_witness :
    (respOk 500 = false ∧ (500 : Nat) ≠ 400 ∧ (500 : Nat) ≠ 429) ∧
      (ouraGet (OuraBase.new none) (some "t") "sleep" none
          (⟨500, "Internal Server Error", Body.obj (some "boom") 0⟩ : HttpResponse Nat)).2 =
        Except.error (APIError.construct "Problem fetching data." 500 "Internal Server Error"
          (some (detailOf (Body.obj (some "boom") (0 : Nat))))
          (some (requestBaseUrl (OuraBase.new none) ++ encodeURI "sleep")) (some "GET")) :=
  ⟨⟨by decide, by decide, by decide⟩,
    (executor_error_dispatch (OuraBase.new none) (some "t") "sleep" none "Internal Server Error"
        (Body.obj (some "boom") 0) 500 (by decide) (by decide) (by decide)).2.2.2.1⟩

/-- C9: on every non-2xx response whose body parses as JSON, the thrown
error's `detail` is derived from the body — `detail || ""`, hence the
empty string when the field is absent, null or empty — and the
`"No details"` default appears exactly on the unparseable-body path. -/
theorem executor_detail_default (c : OuraBaseClient) (tok : Option String) (e : String)
    (qs : Option (List (String × String))) (status : Nat) (st : String) (doc : Nat)
    (h : respOk status = false) :
    (∀ d : Option String,
        thrownDetail (ouraGet c tok e qs (⟨status, st, Body.obj d doc⟩ : HttpResponse Nat)) =
          some (d.getD "")) ∧
      (∀ (l : List Nat) (nt : Option String),
        thrownDetail (ouraGet c tok e qs (⟨status, st, Body.envelope l nt⟩ : HttpResponse Nat)) =
          some "") ∧
      thrownDetail (ouraGet c tok e qs (⟨status, st, Body.malformed⟩ : HttpResponse Nat)) =
        some "No details" := by
  have main : ∀ b : Body Nat,
      thrownDetail (ouraGet c tok e qs (⟨status, st, b⟩ : HttpResponse Nat)) =
        some (detailOf b) := by
    intro b
    by_cases h4 : status = 400
    · simp [ouraGet, thrownDetail, h4, ValidationError.construct]
    · by_cases h9 : status = 429
      · simp [ouraGet, thrownDetail, h4, h9, RateLimitExceeded.construct]
      · simp [ouraGet, thrownDetail, h4, h9, h, APIError.construct]
  exact ⟨fun d => main (Body.obj d doc), fun l nt => main (Body.envelope l nt), main .malformed⟩

/-- C9 witness: a 500 whose parsed body has no `detail` member yields
`""`, an unparseable body yields `"No details"`. -/
theorem executor_detail_default_witness :
    respOk 500 = false ∧
      thrownDetail (ouraGet (OuraBase.new none) (some "t") "sleep" none
          (⟨500, "ISE", Body.obj none 0⟩ : HttpResponse Nat)) =
        some ((none : Option String).getD "") ∧
      thrownDetail (ouraGet (OuraBase.new none) (some "t") "sleep" none
          (⟨500, "ISE", Body.malformed⟩ : HttpResponse Nat)) = some "No details" :=
  ⟨by decide,
    (executor_detail_default (OuraBase.new none) (some "t") "sleep" none 500 "ISE" 0
        (by decide)).1 none,
    (executor_detail_default (OuraBase.new none) (some "t") "sleep" none 500 "ISE" 0
        (by decide)).2.2⟩

/-- C7: `updateSubscription(id, token, undefined, "update", undefined)`
builds a PUT whose body record — and hence its `JSON.stringify`
serialization — contains exactly the `verification_token` and
`event_type` keys, in that order; `callback_url` and `data_type` are
absent altogether, not present with a null value. -/
theorem updateSubscription_update_only_fields (w : WebhookClientData) (id tok : String)
    (resp : WebhookResponse) :
    updateSubscriptionData tok none (some "update") none =
        [("verification_token", tok), ("event_type", "update")] ∧
      (updateSubscription w id tok none (some "update") none resp).1 =
        ⟨"PUT",
          [("Content-Type", "application/json"), ("x-client-id", w.clientId),
            ("x-client-secret", w.clientSecret)],
          some (jsonStringify [("verification_token", tok), ("event_type", "update")])⟩ :=
  ⟨rfl, rfl⟩

/-- C10: the optional keys of the update body are pruned exactly when
the supplied argument is falsy — `undefined` or the empty string alike
— while `verification_token` is always kept, an empty-string
verification token included. -/
theorem updateSubscription_falsy_pruning (vtok : String) (cb et dt : Option String) :
    (updateSubscriptionData vtok cb et dt).map Prod.fst =
        (if truthyOptStr cb then ["callback_url"] else []) ++ ["verification_token"] ++
          (if truthyOptStr et then ["event_type"] else []) ++
          (if truthyOptStr dt then ["data_type"] else []) ∧
      updateSubscriptionData vtok (some "") (some "") (some "") =
        [("verification_token", vtok)] ∧
      updateSubscriptionData "" cb et dt =
        (if truthyOptStr cb then [("callback_url", cb.getD "")] else []) ++
          [("verification_token", "")] ++
          (if truthyOptStr et then [("event_type", et.getD "")] else []) ++
          (if truthyOptStr dt then [("data_type", dt.getD "")] else []) ∧
      ("verification_token", vtok) ∈ updateSubscriptionData vtok cb et dt := by
  refine ⟨?_, rfl, rfl, ?_⟩
  · cases hcb : truthyOptStr cb <;> cases het : truthyOptStr et <;>
      cases hdt : truthyOptStr dt <;> simp [updateSubscriptionData, hcb, het, hdt]
  · simp [updateSubscriptionData]

/-- C6: construction-time credential validation, performed by the pure
constructor functions before any network interaction is modelled at
all.  A static-token client with a falsy token and falsy `useSandbox`
yields `MissingTokenError`; `useSandbox: true` with no token succeeds;
the OAuth constructor yields `MissingClientIdError`,
`MissingClientSecretError` or `MissingRedirectUriError` for the first
missing credential and succeeds — throwing nothing else — when all
three are present. -/
theorem constructor_credential_validation :
    (∀ u : Option Bool, truthyOptBool u = false →
        Oura.new (.options (some "") u) = .error MissingTokenError.construct) ∧
      Oura.new (.token "") = .error MissingTokenError.construct ∧
      Oura.new (.options none (some true)) =
        .ok ⟨"", "https://api.ouraring.com/v2/sandbox/usercollection/"⟩ ∧
      (∀ o : OAuthOptions, truthyOptStr o.clientId = false →
        OuraOAuth.new o = .error MissingClientIdError.construct) ∧
      (∀ o : OAuthOptions, truthyOptStr o.clientId = true →
        truthyOptStr o.clientSecret = false →
        OuraOAuth.new o = .error MissingClientSecretError.construct) ∧
      (∀ o : OAuthOptions, truthyOptStr o.clientId = true →
        truthyOptStr o.clientSecret = true → truthyOptStr o.redirectUri = false →
        OuraOAuth.new o = .error MissingRedirectUriError.construct) ∧
      (∀ o : OAuthOptions, truthyOptStr o.clientId = true →
        truthyOptStr o.clientSecret = true → truthyOptStr o.redirectUri = true →
        OuraOAuth.new o = .ok ⟨OuraBase.new o.useSandbox, o.clientId.getD "",
          o.clientSecret.getD "", o.redirectUri.getD ""⟩) := by
  refine ⟨fun u hu => ?_, rfl, rfl, fun o h1 => ?_, fun o h1 h2 => ?_, fun o h1 h2 h3 => ?_,
    fun o h1 h2 h3 => ?_⟩
  · simp [Oura.new, truthyOptStr, hu]
  · simp [OuraOAuth.new, h1]
  · simp [OuraOAuth.new, h1, h2]
  · simp [OuraOAuth.new, h1, h2, h3]
  · simp [OuraOAuth.new, h1, h2, h3]

/-- C6 witness: an empty static token is rejected, an OAuth client
missing only its client secret gets exactly
`MissingClientSecretError`. -/
theorem constructor_credential_validation_witness :
    (truthyOptBool (none : Option Bool) = false ∧
        Oura.new (.options (some "") none) = .error MissingTokenError.construct) ∧
      (truthyOptStr (some "id") = true ∧ truthyOptStr (none : Option String) = false ∧
        OuraOAuth.new ⟨some "id", none, some "uri", none⟩ =
          .error MissingClientSecretError.construct) :=
  ⟨⟨by decide, constructor_credential_validation.1 none (by decide)⟩,
    ⟨by decide, by decide,
      constructor_credential_validation.2.2.2.2.1 ⟨some "id", none, some "uri", none⟩
        (by decide) (by decide)⟩⟩

/-- C4 counterexample: on a failed webhook request the facade throws
`new APIError(message, status, statusText)` with only three
constructor arguments, so the thrown error's vendor detail, request
URL and request method are `undefined` even though the vendor body
carried a `detail` — refuting the claim that every facade's `APIError`
carries all six fields. -/
theorem webhook_apierror_counterexample :
    (webhookRequest ⟨"cid", "csecret", webhookBaseUrl⟩ "PUT" "subscription/123"
        (some [("verification_token", "tok")])
        ⟨500, "Internal Server Error", Body.obj (some "boom") 0, ""⟩).2.2 =
      Except.error ⟨"APIError", "Problem with request.", some 500, some "Internal Server Error",
        none, none, none⟩ := rfl

/-- C4 (amended): every error the token-based request executor throws
on a non-2xx response carries status, status text, vendor detail,
request URL and request method; construction-time errors carry only a
message; but the webhook facade's `APIError` carries only message,
status and status text, its remaining three fields left undefined. -/
theorem error_field_inventory (c : OuraBaseClient) (tok : Option String) (e : String)
    (qs : Option (List (String × String))) (resp : HttpResponse Nat) (w : WebhookClientData)
    (method url : String) (body : Option (List (String × String))) (wresp : WebhookResponse)
    (h : respOk resp.status = false) (hw : respOk wresp.status = false) :
    (∃ err, (ouraGet c tok e qs resp).2 = Except.error err ∧ fullyDetailed err = true ∧
        err.statusCode = some resp.status ∧ err.responseBody = some resp.statusText) ∧
      onlyMessage MissingTokenError.construct = true ∧
      onlyMessage MissingClientIdError.construct = true ∧
      onlyMessage MissingClientSecretError.construct = true ∧
      onlyMessage MissingRedirectUriError.construct = true ∧
      (webhookRequest w method url body wresp).2.2 =
        Except.error ⟨"APIError", "Problem with request.", some wresp.status,
          some wresp.statusText, none, none, none⟩ := by
  refine ⟨?_, rfl, rfl, rfl, rfl, ?_⟩
  · by_cases h4 : resp.status = 400
    · exact ⟨ValidationError.construct "Query Parameter Validation Error" resp.status
        resp.statusText (detailOf resp.body) (requestBaseUrl c ++ encodeURI e) "GET",
        by simp [ouraGet, h4], by simp [ValidationError.construct, fullyDetailed],
        by simp [ValidationError.construct], by simp [ValidationError.construct]⟩
    · by_cases h9 : resp.status = 429
      · exact ⟨RateLimitExceeded.construct "Request Rate Limit Exceeded" resp.status
          resp.statusText (detailOf resp.body) (requestBaseUrl c ++ encodeURI e) "GET",
          by simp [ouraGet, h4, h9], by simp [RateLimitExceeded.construct, fullyDetailed],
          by simp [RateLimitExceeded.construct], by simp [RateLimitExceeded.construct]⟩
      · exact ⟨APIError.construct "Problem fetching data." resp.status resp.statusText
          (some (detailOf resp.body)) (some (requestBaseUrl c ++ encodeURI e)) (some "GET"),
          by simp [ouraGet, h4, h9, h], by simp [APIError.construct, fullyDetailed],
          by simp [APIError.construct], by simp [APIError.construct]⟩
  · simp [webhookRequest, hw, APIError.construct]

/-- C4 (amended) witness: a 503 user-data response and a 500 webhook
response. -/
theorem error_field_inventory_witness :
    (respOk 503 = false ∧ respOk 500 = false) ∧
      (∃ err, (ouraGet (OuraBase.new none) (some "t") "sleep" none
          (⟨503, "Service Unavailable", Body.obj none 0⟩ : HttpResponse Nat)).2 =
            Except.error err ∧ fullyDetailed err = true ∧ err.statusCode = some 503 ∧
          err.responseBody = some "Service Unavailable") ∧
      (webhookRequest ⟨"cid", "cs", webhookBaseUrl⟩ "GET" "subscription" none
          ⟨500, "Internal Server Error", Body.obj none 0, ""⟩).2.2 =
        Except.error ⟨"APIError", "Problem with request.", some 500,
          some "Internal Server Error", none, none, none⟩ :=
  ⟨⟨by decide, by decide⟩,
    (error_field_inventory (OuraBase.new none) (some "t") "sleep" none
        (⟨503, "Service Unavailable", Body.obj none 0⟩ : HttpResponse Nat)
        ⟨"cid", "cs", webhookBaseUrl⟩ "GET" "subscription" none
        ⟨500, "Internal Server Error", Body.obj none 0, ""⟩ (by decide) (by decide)).1,
    (error_field_inventory (OuraBase.new none) (some "t") "sleep" none
        (⟨503, "Service Unavailable", Body.obj none 0⟩ : HttpResponse Nat)
        ⟨"cid", "cs", webhookBaseUrl⟩ "GET" "subscription" none
        ⟨500, "Internal Server Error", Body.obj none 0, ""⟩ (by decide)
        (by decide)).2.2.2.2.2⟩

/-- The executor returns a 200 envelope page unchanged. -/
theorem ouraGet_envelope_ok {α : Type} (c : OuraBaseClient) (tok : Option String) (e : String)
    (qs : Option (List (String × String))) (pageData : List α) (nt : Option String) :
    ouraGet c tok e qs (⟨200, "OK", Body.envelope pageData nt⟩ : HttpResponse α) =
      (⟨fetchUrl c e qs, "GET", "Bearer " ++ tok.getD "undefined", qs⟩,
        Except.ok (Body.envelope pageData nt)) := rfl

/-- One unfolding of the loop at a 200 page with a truthy token: the
page's data is appended and the loop continues with
`{ next_token }` as the sole parameters. -/
theorem getAllGo_cons_truthy (c : OuraBaseClient) (tok : Option String) (e : String)
    (ps : Option (List (String × String))) (pageData : List Nat) (t : String) (ht : t ≠ "")
    (rest : List (HttpResponse Nat)) (acc : List Nat) :
    getAllGo c tok e ps ((⟨200, "OK", Body.envelope pageData (some t)⟩ : HttpResponse Nat)
        :: rest) acc =
      (⟨fetchUrl c e ps, "GET", "Bearer " ++ tok.getD "undefined", ps⟩ ::
          (getAllGo c tok e (some [("next_token", t)]) rest (acc ++ pageData)).1,
        (getAllGo c tok e (some [("next_token", t)]) rest (acc ++ pageData)).2) := by
  simp [getAllGo, ouraGet_envelope_ok, ht]

/-- One unfolding of the loop at a 200 page with a null token: the
page's data is appended and the accumulator is returned. -/
theorem getAllGo_cons_final (c : OuraBaseClient) (tok : Option String) (e : String)
    (ps : Option (List (String × String))) (pageData : List Nat)
    (rest : List (HttpResponse Nat)) (acc : List Nat) :
    getAllGo c tok e ps ((⟨200, "OK", Body.envelope pageData none⟩ : HttpResponse Nat)
        :: rest) acc =
      ([⟨fetchUrl c e ps, "GET", "Bearer " ++ tok.getD "undefined", ps⟩],
        GetAllResult.dataList (acc ++ pageData)) := by
  simp [getAllGo, ouraGet_envelope_ok]

/-- Unfolded run of the `getAll` loop over a well-chained fixture, for
any current parameters and accumulator. -/
theorem getAllGo_chain (c : OuraBaseClient) (tok : Option String) (e : String)
    (pages : List (Page Nat)) (h : paginationChain pages = true)
    (ps : Option (List (String × String))) (acc : List Nat) :
    getAllGo c tok e ps (pagesToResponses pages) acc =
      (⟨fetchUrl c e ps, "GET", "Bearer " ++ tok.getD "undefined", ps⟩ ::
          expectedTail c tok e pages,
        GetAllResult.dataList (acc ++ (pages.map Page.data).flatten)) := by
  induction pages generalizing ps acc with
  | nil => simp [paginationChain] at h
  | cons p rest ih =>
    cases rest with
    | nil =>
      have hp : p.nextToken = none := by
        simpa [paginationChain, Option.isNone_iff_eq_none] using h
      rw [show pagesToResponses [p] =
        [(⟨200, "OK", Body.envelope p.data none⟩ : HttpResponse Nat)] by
          simp [pagesToResponses, pageResponse, hp]]
      rw [getAllGo_cons_final]
      simp [expectedTail]
    | cons q rest2 =>
      have h2 : truthyToken p = true ∧ paginationChain (q :: rest2) = true := by
        simpa [paginationChain] using h
      obtain ⟨t, hp, ht⟩ : ∃ t, p.nextToken = some t ∧ t ≠ "" := by
        cases hp : p.nextToken with
        | none => rw [truthyToken, hp] at h2; exact absurd h2.1 (by simp)
        | some t =>
          refine ⟨t, rfl, ?_⟩
          have ht0 := h2.1
          rw [truthyToken, hp] at ht0
          simpa using ht0
      rw [show pagesToResponses (p :: q :: rest2) =
        (⟨200, "OK", Body.envelope p.data (some t)⟩ : HttpResponse Nat) ::
          pagesToResponses (q :: rest2) by simp [pagesToResponses, pageResponse, hp]]
      rw [getAllGo_cons_truthy c tok e ps p.data t ht]
      rw [ih h2.2 (some [("next_token", t)]) (acc ++ p.data)]
      simp [expectedTail, hp, List.append_assoc]

/-- C1 (amended): over a fixture of N pages whose every page before
the last carries a non-null, non-empty `next_token` and whose last
page carries a null token, `getAll` returns the concatenation of all
pages' `data` arrays in original order and issues exactly N requests —
the first carrying the initial parameters, each later one carrying
exactly `{ next_token: <token of the previous page> }` (see
`expectedRequests`/`expectedTail`). -/
theorem getAll_paginated_run (c : OuraBaseClient) (tok : Option String) (e : String)
    (ps : Option (List (String × String))) (pages : List (Page Nat))
    (h : paginationChain pages = true) :
    getAll c tok e ps (pagesToResponses pages) =
      (expectedRequests c tok e ps pages,
        GetAllResult.dataList (pages.map Page.data).flatten) := by
  have := getAllGo_chain c tok e pages h ps []
  simpa [getAll, expectedRequests] using this

/-- The two-page fixture refuting C1 as stated: the first page's
`next_token` is the non-null empty string. -/
def c1Pages : List (Page Nat) := [⟨[10], some ""⟩, ⟨[20], none⟩]

/-- The initial query parameters of the C1 runs. -/
def c1Params : Option (List (String × String)) :=
  some [("start_date", "2023-01-01"), ("end_date", "2023-01-10")]

/-- C1 counterexample: the fixture `c1Pages` satisfies the claim's
premise — two pages, the first with a non-null `next_token`, the last
with a null one — yet the aggregator issues one request instead of two
and returns only the first page's data, because the loop tests the
token for truthiness and the empty string is falsy. -/
theorem getAll_c1_counterexample :
    (c1Pages.length = 2 ∧ (c1Pages[0]?).map Page.nextToken ≠ some none ∧
        (c1Pages[1]?).map Page.nextToken = some none) ∧
      (getAll (OuraBase.new none) (some "token") "daily_activity" c1Params
          (pagesToResponses c1Pages)).1.length = 1 ∧
      (getAll (OuraBase.new none) (some "token") "daily_activity" c1Params
          (pagesToResponses c1Pages)).2 = GetAllResult.dataList [10] := by
  refine ⟨⟨rfl, by decide, rfl⟩, by decide, by decide⟩

/-- The well-chained two-page fixture used to witness the amended C1. -/
def c1GoodPages : List (Page Nat) := [⟨[10, 11], some "abc"⟩, ⟨[20], none⟩]

/-- C1 (amended) witness: a two-page run with a truthy intermediate
token. -/
theorem getAll_paginated_run_witness :
    paginationChain c1GoodPages = true ∧
      getAll (OuraBase.new none) (some "token") "daily_activity" c1Params
          (pagesToResponses c1GoodPages) =
        (expectedRequests (OuraBase.new none) (some "token") "daily_activity" c1Params
            c1GoodPages,
          GetAllResult.dataList (c1GoodPages.map Page.data).flatten) :=
  ⟨by decide,
    getAll_paginated_run (OuraBase.new none) (some "token") "daily_activity" c1Params
      c1GoodPages (by decide)⟩

/-- One unfolding of the loop at a response on which the executor
throws: the loop aborts with that error, the accumulator is dropped. -/
theorem getAllGo_cons_error (c : OuraBaseClient) (tok : Option String) (e : String)
    (ps : Option (List (String × String))) (resp : HttpResponse Nat)
    (rest : List (HttpResponse Nat)) (acc : List Nat) (err : ErrObj)
    (herr : (ouraGet c tok e ps resp).2 = Except.error err) :
    getAllGo c tok e ps (resp :: rest) acc =
      ([(ouraGet c tok e ps resp).1], GetAllResult.err err) := by
  simp [getAllGo, herr]

/-- Error propagation of the loop: after any number of well-tokened
pages, a response the executor throws on aborts the whole run with
exactly that error, whatever the accumulator holds. -/
theorem getAllGo_error_prop (c : OuraBaseClient) (tok : Option String) (e : String)
    (failResp : HttpResponse Nat) (hfail : respOk failResp.status = false)
    (rest : List (HttpResponse Nat)) :
    ∀ (pages : List (Page Nat)), (∀ p ∈ pages, truthyToken p = true) →
    ∀ (ps : Option (List (String × String))) (acc : List Nat),
      ∃ err, (ouraGet c tok e none failResp).2 = Except.error err ∧
        (getAllGo c tok e ps (pagesToResponses pages ++ failResp :: rest) acc).2 =
          GetAllResult.err err ∧
        (getAllGo c tok e ps (pagesToResponses pages ++ failResp :: rest) acc).1.length =
          pages.length + 1 := by
  intro pages
  induction pages with
  | nil =>
    intro _ ps acc
    obtain ⟨err, herr⟩ := ouraGet_not_ok_error c tok e ps failResp hfail
    refine ⟨err, (ouraGet_snd_qs c tok e none ps failResp).trans herr, ?_, ?_⟩
    · simp [pagesToResponses, getAllGo_cons_error c tok e ps failResp rest acc err herr]
    · simp [pagesToResponses, getAllGo_cons_error c tok e ps failResp rest acc err herr]
  | cons p pages2 ih =>
    intro hall ps acc
    obtain ⟨t, hp, ht⟩ : ∃ t, p.nextToken = some t ∧ t ≠ "" := by
      have hh := hall p (by simp)
      cases hp : p.nextToken with
      | none => rw [truthyToken, hp] at hh; exact absurd hh (by simp)
      | some t =>
        refine ⟨t, rfl, ?_⟩
        rw [truthyToken, hp] at hh
        simpa using hh
    obtain ⟨err, h1, h2, h3⟩ :=
      ih (fun q hq => hall q (by simp [hq])) (some [("next_token", t)]) (acc ++ p.data)
    have hsplit : pagesToResponses (p :: pages2) ++ failResp :: rest =
        (⟨200, "OK", Body.envelope p.data (some t)⟩ : HttpResponse Nat) ::
          (pagesToResponses pages2 ++ failResp :: rest) := by
      simp [pagesToResponses, pageResponse, hp]
    refine ⟨err, h1, ?_, ?_⟩
    · rw [hsplit, getAllGo_cons_truthy c tok e ps p.data t ht]
      exact h2
    · rw [hsplit, getAllGo_cons_truthy c tok e ps p.data t ht]
      simpa using h3

/-- C5: if the executor throws on any page fetch in the middle of a
pagination run, `getAll` propagates exactly that error to the caller;
the outcome is the error alone — the data accumulated from the earlier
pages is discarded and no `dataList` outcome is ever produced. -/
theorem getAll_midrun_failure_discards (c : OuraBaseClient) (tok : Option String) (e : String)
    (ps : Option (List (String × String))) (pages : List (Page Nat))
    (hall : ∀ p ∈ pages, truthyToken p = true) (failResp : HttpResponse Nat)
    (hfail : respOk failResp.status = false) (rest : List (HttpResponse Nat)) :
    ∃ err, (ouraGet c tok e none failResp).2 = Except.error err ∧
      (getAll c tok e ps (pagesToResponses pages ++ failResp :: rest)).2 =
        GetAllResult.err err ∧
      (getAll c tok e ps (pagesToResponses pages ++ failResp :: rest)).1.length =
        pages.length + 1 ∧
      ∀ l : List Nat,
        (getAll c tok e ps (pagesToResponses pages ++ failResp :: rest)).2 ≠
          GetAllResult.dataList l := by
  obtain ⟨err, h1, h2, h3⟩ := getAllGo_error_prop c tok e failResp hfail rest pages hall ps []
  exact ⟨err, h1, h2, h3, fun l hl => absurd (h2.symm.trans hl) (by simp)⟩

/-- C5 witness: one successful page, then a 500. -/
theorem getAll_midrun_failure_discards_witness :
    (∀ p ∈ [(⟨[1], some "abc"⟩ : Page Nat)], truthyToken p = true) ∧ respOk 500 = false ∧
      ∃ err, (ouraGet (OuraBase.new none) (some "t") "sleep" none
            (⟨500, "ISE", Body.obj none 0⟩ : HttpResponse Nat)).2 = Except.error err ∧
        (getAll (OuraBase.new none) (some "t") "sleep" none
            (pagesToResponses [(⟨[1], some "abc"⟩ : Page Nat)] ++
              (⟨500, "ISE", Body.obj none 0⟩ : HttpResponse Nat) :: [])).2 =
          GetAllResult.err err ∧
        (getAll (OuraBase.new none) (some "t") "sleep" none
            (pagesToResponses [(⟨[1], some "abc"⟩ : Page Nat)] ++
              (⟨500, "ISE", Body.obj none 0⟩ : HttpResponse Nat) :: [])).1.length =
          [(⟨[1], some "abc"⟩ : Page Nat)].length + 1 ∧
        ∀ l : List Nat,
          (getAll (OuraBase.new none) (some "t") "sleep" none
              (pagesToResponses [(⟨[1], some "abc"⟩ : Page Nat)] ++
                (⟨500, "ISE", Body.obj none 0⟩ : HttpResponse Nat) :: [])).2 ≠
            GetAllResult.dataList l :=
  ⟨by decide, by decide,
    getAll_midrun_failure_discards (OuraBase.new none) (some "t") "sleep" none
      [(⟨[1], some "abc"⟩ : Page Nat)] (by decide) (⟨500, "ISE", Body.obj none 0⟩)
      (by decide) []⟩

/-- Every fetch URL extends the client's construction-determined base
URL. -/
theorem fetchUrl_base (c : OuraBaseClient) (e : String)
    (qs : Option (List (String × String))) :
    ∃ s, fetchUrl c e qs = requestBaseUrl c ++ s :=
  ⟨encodeURI e ++
      (match qs with
        | some q => "?" ++ urlSearchParamsString q
        | none => ""),
    by rw [fetchUrl.eq_def, String.append_assoc]⟩

/-- Every request a `getAll` run issues has the URL the executor built
from the client's base URL: its URL is `fetchUrl` of its own query
record. -/
theorem getAllGo_req_url (c : OuraBaseClient) (tok : Option String) (e : String)
    (responses : List (HttpResponse Nat)) :
    ∀ (ps : Option (List (String × String))) (acc : List Nat) (req : Request),
      req ∈ (getAllGo c tok e ps responses acc).1 → req.url = fetchUrl c e req.params := by
  induction responses with
  | nil => intro ps acc req h; simp [getAllGo] at h
  | cons resp rest ih =>
    intro ps acc req h
    rw [getAllGo] at h
    rcases hstep : (ouraGet c tok e ps resp).2 with err | body <;> rw [hstep] at h
    · simp at h
      subst h
      rfl
    · cases body with
      | malformed => simp at h; subst h; rfl
      | obj d doc => simp at h; subst h; rfl
      | envelope pageData nextToken =>
        cases nextToken with
        | none => simp at h; subst h; rfl
        | some t =>
          by_cases ht : t = ""
          · simp [ht] at h
            subst h
            rfl
          · simp [ht] at h
            rcases h with h | h
            · subst h; rfl
            · exact ih (some [("next_token", t)]) (acc ++ pageData) req h

/-- C8: the choice between sandbox and production endpoint is made once
by the constructor — `#useSandbox` is written only there — and every
request a run of the aggregator issues has a URL extending the one
base URL that flag selects; the two base URLs differ, so no instance
can ever mix them. -/
theorem sandbox_endpoint_fixed (opts : Option Bool) (tok : Option String) (e : String)
    (ps : Option (List (String × String))) (responses : List (HttpResponse Nat)) :
    (OuraBase.new opts).useSandbox = truthyOptBool opts ∧
      requestBaseUrl (OuraBase.new opts) =
        (if truthyOptBool opts then API_URLS.basev2Sandbox else API_URLS.baseV2) ∧
      API_URLS.basev2Sandbox ≠ API_URLS.baseV2 ∧
      ∀ req ∈ (getAll (OuraBase.new opts) tok e ps responses).1,
        ∃ s, req.url = requestBaseUrl (OuraBase.new opts) ++ s := by
  refine ⟨rfl, rfl, by decide, fun req h => ?_⟩
  rw [getAllGo_req_url (OuraBase.new opts) tok e responses ps [] req h]
  exact fetchUrl_base (OuraBase.new opts) e req.params

/-- The first request of the C8 witness run, against a sandbox
client. -/
def c8req : Request :=
  (ouraGet (OuraBase.new (some true)) (some "t") "daily_activity"
    (none : Option (List (String × String)))
    (⟨200, "OK", Body.obj none 0⟩ : HttpResponse Nat)).1

/-- C8 witness: the one request of a singleton run against a sandbox
client extends the sandbox base URL. -/
theorem sandbox_endpoint_fixed_witness :
    c8req ∈ (getAll (OuraBase.new (some true)) (some "t") "daily_activity" none
        [(⟨200, "OK", Body.obj none 0⟩ : HttpResponse Nat)]).1 ∧
      ∃ s, c8req.url = requestBaseUrl (OuraBase.new (some true)) ++ s :=
  ⟨by decide,
    (sandbox_endpoint_fixed (some true) (some "t") "daily_activity" none
        [(⟨200, "OK", Body.obj none 0⟩ : HttpResponse Nat)]).2.2.2 c8req (by decide)⟩

end OuraApi
